import Mathlib

/-!
Verification of the kuzco-monitor metrics core: a shallow embedding of the
rolling-window statistics store, the alert latches, the snapshot builder and
the log-pattern health monitor, with theorems about their behaviour.

Modelling conventions: Go `time.Time` values are nanosecond counts (`Int`),
with `0` standing for Go's zero time (`IsZero`). Go `float64` fields are
modelled as `Rat`. Go strings are `List Char`.
-/

/-- Nanoseconds in one minute (Go `time.Minute`). -/
def minuteNs : Int := 60 * 1000000000

/-- Go `60 * time.Minute`, the rolling-window duration. -/
def sixtyMinutesNs : Int := 60 * minuteNs

/-- Go `5 * time.Minute`, the instance-mismatch grace period. -/
def fiveMinutesNs : Int := 5 * minuteNs

/-! ## Rolling Window Store (`HourlyStatsManager`, part_005) -/

/-- One per-minute sample (`MinuteStats` in part_005). -/
structure MinuteStats where
  rpm : Int
  totalInstances : Int
  generalGen : Int
  userGen : Int
  timestamp : Int
deriving Repr, DecidableEq

/-- The per-metric aggregate block of `HourlyStats` (min/max/avg/current/count/sum). -/
structure StatFields where
  min : Int
  max : Int
  avg : Rat
  current : Int
  count : Int
  sum : Int
deriving Repr, DecidableEq

/-- Go zero value of the aggregate block. -/
def zeroStatFields : StatFields :=
  { min := 0, max := 0, avg := 0, current := 0, count := 0, sum := 0 }

/-- The `GenerationLastHour` block of `HourlyStats`. -/
structure GenerationLastHourStats where
  general : Int
  user : Int
  ratioVal : Rat
deriving Repr, DecidableEq

/-- `HourlyStats` (part_005): the on-demand aggregate view of the window. -/
structure HourlyStats where
  rpm : StatFields
  totalInstances : StatFields
  generationLastHour : GenerationLastHourStats
  startTime : Int
  endTime : Int
deriving Repr, DecidableEq

/-- One iteration of the per-metric aggregation loop in `GetStats`: the
`i == 0` iteration seeds min/max, later iterations update them; every
iteration overwrites `current` and accumulates `sum`/`count`. -/
def statLoopAux (get : MinuteStats → Int) (r : StatFields) (first : Bool) :
    List MinuteStats → StatFields
  | [] => r
  | s :: rest =>
    let v := get s
    let r1 :=
      if first then { r with min := v, max := v }
      else
        { r with
          min := if v < r.min then v else r.min,
          max := if v > r.max then v else r.max }
    statLoopAux get
      { r1 with current := v, sum := r1.sum + v, count := r1.count + 1 } false rest

/-- The full per-metric loop of `GetStats`, starting from the zero-valued result. -/
def statLoop (get : MinuteStats → Int) (stats : List MinuteStats) : StatFields :=
  statLoopAux get zeroStatFields true stats

/-- The `if Count > 0` average step after each loop in `GetStats`. -/
def finishAvg (r : StatFields) : StatFields :=
  if r.count > 0 then { r with avg := (r.sum : Rat) / (r.count : Rat) } else r

/-- The generation loop of `GetStats`: totals both populations. -/
def genTotals (stats : List MinuteStats) : Int × Int :=
  stats.foldl (fun p s => (p.1 + s.generalGen, p.2 + s.userGen)) (0, 0)

/-- `HourlyStatsManager.GetStats` (part_005 236-305): aggregates the stored
samples; an empty window returns the zero-valued result anchored at `now`
(both `time.Now()` calls of the Go code modelled as the single query time). -/
def GetStats (stats : List MinuteStats) (now : Int) : HourlyStats :=
  match stats with
  | [] =>
    { rpm := zeroStatFields, totalInstances := zeroStatFields,
      generationLastHour := { general := 0, user := 0, ratioVal := 0 },
      startTime := now, endTime := now }
  | s0 :: rest =>
    let g := genTotals (s0 :: rest)
    { rpm := finishAvg (statLoop (fun s => s.rpm) (s0 :: rest)),
      totalInstances := finishAvg (statLoop (fun s => s.totalInstances) (s0 :: rest)),
      generationLastHour :=
        { general := g.1, user := g.2,
          ratioVal := if g.1 > 0 then (g.2 : Rat) / (g.1 : Rat) * 100 else 0 },
      startTime := s0.timestamp,
      endTime := ((s0 :: rest).getLast (by simp)).timestamp }

/-- The compact per-tick numbers `UpdateStats` reads from a `MinuteMetrics`. -/
structure MinuteSampleInput where
  generalRPM : Int
  generalTotalInstances : Int
  generalGenLastHour : Int
  userGenLastHour : Int
deriving Repr, DecidableEq

/-- The new sample `UpdateStats` appends, stamped with wall-clock `now`. -/
def newStat (metrics : MinuteSampleInput) (now : Int) : MinuteStats :=
  { rpm := metrics.generalRPM, totalInstances := metrics.generalTotalInstances,
    generalGen := metrics.generalGenLastHour, userGen := metrics.userGenLastHour,
    timestamp := now }

/-- `HourlyStatsManager.UpdateStats` (part_005 308-334): drops every stored
sample not strictly newer than `now - 60min`, then appends the new sample. -/
def UpdateStats (stats : List MinuteStats) (metrics : MinuteSampleInput)
    (now : Int) : List MinuteStats :=
  let cutoff := now - sixtyMinutesNs
  let validStats := stats.filter (fun s => s.timestamp > cutoff)
  validStats ++ [newStat metrics now]

example :
    UpdateStats [⟨1, 1, 1, 1, 0⟩, ⟨2, 2, 2, 2, 3600000000001⟩] ⟨5, 6, 7, 8⟩
      3600000000002 =
    [⟨2, 2, 2, 2, 3600000000001⟩, ⟨5, 6, 7, 8, 3600000000002⟩] := by decide

/-! ## Theorems for C3 and C4 -/

/-- C3: after every `UpdateStats` (append), the window's last element is the
newly appended sample, whose timestamp is the append-time `now`, and every
sample remaining in the window is strictly newer than 60 minutes before that
timestamp — eviction happens inside the write itself, for any prior content
of the window (hence after each append of any append sequence). -/
theorem updateStats_evicts_old (stats : List MinuteStats)
    (metrics : MinuteSampleInput) (now : Int) (s : MinuteStats)
    (hs : s ∈ UpdateStats stats metrics now) :
    now - s.timestamp < sixtyMinutesNs ∧
      (UpdateStats stats metrics now).getLast? = some (newStat metrics now) ∧
      (newStat metrics now).timestamp = now := by
  refine ⟨?_, ?_, rfl⟩
  · unfold UpdateStats at hs
    rcases List.mem_append.1 hs with h | h
    · have := (List.mem_filter.1 h).2
      have hgt : s.timestamp > now - sixtyMinutesNs := by
        simpa using this
      omega
    · have : s = newStat metrics now := by simpa using h
      subst this
      simp only [newStat, sixtyMinutesNs, minuteNs]
      omega
  · unfold UpdateStats
    simp

/-- Witness for C3 at a concrete window and append. -/
theorem updateStats_evicts_old_witness :
    (3600000000002 : Int) - (⟨2, 2, 2, 2, 3600000000001⟩ : MinuteStats).timestamp <
        sixtyMinutesNs ∧
      (UpdateStats [⟨1, 1, 1, 1, 0⟩, ⟨2, 2, 2, 2, 3600000000001⟩] ⟨5, 6, 7, 8⟩
          3600000000002).getLast? = some (newStat ⟨5, 6, 7, 8⟩ 3600000000002) ∧
      (newStat ⟨5, 6, 7, 8⟩ 3600000000002).timestamp = 3600000000002 :=
  updateStats_evicts_old [⟨1, 1, 1, 1, 0⟩, ⟨2, 2, 2, 2, 3600000000001⟩]
    ⟨5, 6, 7, 8⟩ 3600000000002 ⟨2, 2, 2, 2, 3600000000001⟩ (by decide)

/-- C4: `GetStats` on an empty window returns the all-zero result (every
min/max/avg/current/count/sum and the generation ratio are 0 — in particular
the ratio is 0 rather than a division by zero) with both the start and end
timestamps equal to the query time. -/
theorem getStats_empty (now : Int) :
    GetStats [] now =
      { rpm := zeroStatFields, totalInstances := zeroStatFields,
        generationLastHour := { general := 0, user := 0, ratioVal := 0 },
        startTime := now, endTime := now } := rfl

/-! ## Alert State Machine (part_005) -/

/-- `VastaiCredit` as stored on the snapshot (credit balance plus fetch time). -/
structure VastaiCredit where
  credit : Rat
  timestamp : List Char
deriving Repr, DecidableEq

/-- `AlertState` (part_005 201-207): one latch flag per alert condition plus
the instance-mismatch start time (`0` = Go's zero `time.Time`). -/
structure AlertState where
  versionMismatchAlerted : Bool
  instanceCountAlerted : Bool
  creditAlerted : Bool
  lastAlertTime : Int
  instanceMismatchStart : Int
deriving Repr, DecidableEq

/-- `AlertConfig` (part_005 210-214). -/
structure AlertConfig where
  minInstanceCount : Int
  minCredit : Rat
  enabled : Bool
deriving Repr, DecidableEq

/-- `InstanceMetrics` (part_005 129-137). -/
structure InstanceMetrics where
  status : List Char
  model : List Char
  lane : List Char
  ip : List Char
  gpuModel : List Char
  version : List Char
  versionMismatch : Bool
deriving Repr, DecidableEq

/-- `WorkerMinuteMetrics` (part_005 139-150). -/
structure WorkerMinuteMetrics where
  id : List Char
  name : List Char
  instanceCount : Int
  dailyCost : Rat
  tokensPerInstance : Int
  tokensLast24H : Int
  totalTokens : Int
  generationsLast24H : Int
  generationLastHour : Int
  instances : List InstanceMetrics
deriving Repr, DecidableEq

/-- The `General` block of `MinuteMetrics` (part_005 153-160). -/
structure GeneralMinuteMetrics where
  totalInstances : Int
  rpm : Int
  tokensLast24Hours : Int
  generationsLast24Hours : Int
  generationLastHour : Int
  cliVersion : List Char
deriving Repr, DecidableEq

/-- The `User` block of `MinuteMetrics` (part_005 161-176). -/
structure UserMinuteMetrics where
  tokensLast24Hours : Int
  tokensAllTime : Int
  generationsLast24Hours : Int
  totalInstances : Int
  actualTotalInstances : Int
  instancesMismatch : Bool
  kuzcoDailyCost : Rat
  vastaiDailyCost : Rat
  totalDailyCost : Rat
  tokensPerInstance : Int
  share : Rat
  generationLastHour : Int
  vastaiCredit : Option VastaiCredit
  workers : List WorkerMinuteMetrics
deriving Repr, DecidableEq

/-- `MinuteMetrics` (part_005 152-179), the per-tick snapshot record. -/
structure MinuteMetrics where
  general : GeneralMinuteMetrics
  user : UserMinuteMetrics
  timestamp : List Char
  alertState : AlertState
deriving Repr, DecidableEq

/-- The notification channel class passed to `sendAlert` by each check
(`"error"` resp. `"status"` in the Go calls). -/
inductive AlertChannel
  | errorChannel
  | statusChannel
deriving Repr, DecidableEq

/-- The six alert notifications the checks can build, with the data that the
Go code interpolates into each message body. -/
inductive AlertMsg
  | versionProblem (mismatchedWorkers : List (List Char))
  | versionResolved
  | instanceProblem (total actual : Int)
  | instanceResolved (total actual : Int)
  | creditProblem (credit cost : Rat)
  | creditResolved (credit cost : Rat)
deriving Repr, DecidableEq

/-- Result of one alert check: the updated `AlertState` (the Go code mutates
`mm.AlertState` in place), the `sendAlert` calls made, and whether the check
returned an error. -/
structure CheckResult where
  state : AlertState
  sends : List (AlertMsg × AlertChannel)
  errored : Bool
deriving Repr, DecidableEq

/-- The `mismatchedWorkers` list built by the scan loop of
`checkVersionMismatch` (part_005 637-644): one `"name (IP: ip)"` entry per
version-mismatched instance, in worker order. -/
def mismatchedWorkersOf (mm : MinuteMetrics) : List (List Char) :=
  (mm.user.workers.map (fun w =>
    (w.instances.filter (fun inst => inst.versionMismatch)).map
      (fun inst => w.name ++ " (IP: ".toList ++ inst.ip ++ [')']))).flatten

/-- `checkVersionMismatch` (part_005 633-667): edge-triggered latch on "some
instance reports a mismatched version"; the flag is only flipped after a
successful send. -/
def checkVersionMismatch (mm : MinuteMetrics)
    (sendAlert : AlertMsg → AlertChannel → Bool) : CheckResult :=
  let mismatchedWorkers := mismatchedWorkersOf mm
  let st := mm.alertState
  if mismatchedWorkers ≠ [] ∧ st.versionMismatchAlerted = false then
    let m := AlertMsg.versionProblem mismatchedWorkers
    if sendAlert m .errorChannel then
      { state := { st with versionMismatchAlerted := true },
        sends := [(m, .errorChannel)], errored := false }
    else
      { state := st, sends := [(m, .errorChannel)], errored := true }
  else if mismatchedWorkers = [] ∧ st.versionMismatchAlerted = true then
    let m := AlertMsg.versionResolved
    if sendAlert m .errorChannel then
      { state := { st with versionMismatchAlerted := false },
        sends := [(m, .errorChannel)], errored := false }
    else
      { state := st, sends := [(m, .errorChannel)], errored := true }
  else
    { state := st, sends := [], errored := false }

/-- `checkInstanceCount` (part_005 670-715): gated on `config.Enabled` and on
the cost provider's credit being present; latch on "the two instance counts
disagree and have disagreed for at least 5 minutes"; a tick of agreement
clears the mismatch start time. -/
def checkInstanceCount (mm : MinuteMetrics) (config : AlertConfig)
    (sendAlert : AlertMsg → AlertChannel → Bool) (now : Int) : CheckResult :=
  let st := mm.alertState
  if config.enabled = false then
    { state := st, sends := [], errored := false }
  else if mm.user.vastaiCredit = none then
    { state := st, sends := [], errored := false }
  else if mm.user.instancesMismatch then
    let st1 :=
      if st.instanceMismatchStart = 0 then { st with instanceMismatchStart := now }
      else st
    if now - st1.instanceMismatchStart ≥ fiveMinutesNs ∧
        st1.instanceCountAlerted = false then
      let m := AlertMsg.instanceProblem mm.user.totalInstances
        mm.user.actualTotalInstances
      if sendAlert m .statusChannel then
        { state := { st1 with instanceCountAlerted := true },
          sends := [(m, .statusChannel)], errored := false }
      else
        { state := st1, sends := [(m, .statusChannel)], errored := true }
    else
      { state := st1, sends := [], errored := false }
  else
    if st.instanceCountAlerted then
      let m := AlertMsg.instanceResolved mm.user.totalInstances
        mm.user.actualTotalInstances
      if sendAlert m .statusChannel then
        { state := { st with instanceCountAlerted := false,
                             instanceMismatchStart := 0 },
          sends := [(m, .statusChannel)], errored := false }
      else
        { state := st, sends := [(m, .statusChannel)], errored := true }
    else
      { state := { st with instanceMismatchStart := 0 }, sends := [],
        errored := false }

/-- `checkCredit` (part_005 718-752): gated like the instance-count check;
latch on "credit balance ≤ total daily cost". -/
def checkCredit (mm : MinuteMetrics) (config : AlertConfig)
    (sendAlert : AlertMsg → AlertChannel → Bool) : CheckResult :=
  let st := mm.alertState
  if config.enabled = false then
    { state := st, sends := [], errored := false }
  else
    match mm.user.vastaiCredit with
    | none => { state := st, sends := [], errored := false }
    | some credit =>
      if credit.credit ≤ mm.user.totalDailyCost ∧ st.creditAlerted = false then
        let m := AlertMsg.creditProblem credit.credit mm.user.totalDailyCost
        if sendAlert m .statusChannel then
          { state := { st with creditAlerted := true },
            sends := [(m, .statusChannel)], errored := false }
        else
          { state := st, sends := [(m, .statusChannel)], errored := true }
      else if credit.credit > mm.user.totalDailyCost ∧ st.creditAlerted = true then
        let m := AlertMsg.creditResolved credit.credit mm.user.totalDailyCost
        if sendAlert m .statusChannel then
          { state := { st with creditAlerted := false },
            sends := [(m, .statusChannel)], errored := false }
        else
          { state := st, sends := [(m, .statusChannel)], errored := true }
      else
        { state := st, sends := [], errored := false }

/-- `checkAlerts` (part_005 616-630): runs the three checks in order,
returning at the first error; each later check sees the state the earlier
ones left in `mm.AlertState`. -/
def checkAlerts (mm : MinuteMetrics) (config : AlertConfig)
    (sendAlert : AlertMsg → AlertChannel → Bool) (now : Int) : CheckResult :=
  let r1 := checkVersionMismatch mm sendAlert
  if r1.errored then r1
  else
    let r2 := checkInstanceCount { mm with alertState := r1.state } config
      sendAlert now
    if r2.errored then
      { state := r2.state, sends := r1.sends ++ r2.sends, errored := true }
    else
      let r3 := checkCredit { mm with alertState := r2.state } config sendAlert
      { state := r3.state, sends := r1.sends ++ r2.sends ++ r3.sends,
        errored := r3.errored }


/-! ## Latch characterizations -/

/-- Whether a message is one of the three "problem" notifications. -/
def isProblemMsg : AlertMsg → Bool
  | .versionProblem _ => true
  | .instanceProblem _ _ => true
  | .creditProblem _ _ => true
  | _ => false

/-- Whether a message is one of the three "resolved" notifications. -/
def isResolvedMsg : AlertMsg → Bool
  | .versionResolved => true
  | .instanceResolved _ _ => true
  | .creditResolved _ _ => true
  | _ => false

/-- A "problem" notification was sent by this check invocation. -/
def problemSent (r : CheckResult) : Bool :=
  r.sends.any (fun p => isProblemMsg p.1)

/-- A "resolved" notification was sent by this check invocation. -/
def resolvedSent (r : CheckResult) : Bool :=
  r.sends.any (fun p => isResolvedMsg p.1)

/-- With a succeeding sink, `checkVersionMismatch` is exactly the
edge-triggered latch on "some instance has a mismatched version". -/
theorem checkVersionMismatch_char (mm : MinuteMetrics)
    (sendAlert : AlertMsg → AlertChannel → Bool)
    (hSend : ∀ m c, sendAlert m c = true) :
    checkVersionMismatch mm sendAlert =
      if mismatchedWorkersOf mm ≠ [] ∧ mm.alertState.versionMismatchAlerted = false then
        { state := { mm.alertState with versionMismatchAlerted := true },
          sends := [(AlertMsg.versionProblem (mismatchedWorkersOf mm),
            AlertChannel.errorChannel)],
          errored := false }
      else if mismatchedWorkersOf mm = [] ∧ mm.alertState.versionMismatchAlerted = true then
        { state := { mm.alertState with versionMismatchAlerted := false },
          sends := [(AlertMsg.versionResolved, AlertChannel.errorChannel)],
          errored := false }
      else
        { state := mm.alertState, sends := [], errored := false } := by
  simp only [checkVersionMismatch, hSend, if_true]

/-- With the cost provider configured and a succeeding sink,
`checkInstanceCount` is the grace-period latch on the instance-count
mismatch. -/
theorem checkInstanceCount_char (mm : MinuteMetrics) (config : AlertConfig)
    (sendAlert : AlertMsg → AlertChannel → Bool) (now : Int)
    (credit : VastaiCredit)
    (hSend : ∀ m c, sendAlert m c = true)
    (hEnabled : config.enabled = true)
    (hCredit : mm.user.vastaiCredit = some credit) :
    checkInstanceCount mm config sendAlert now =
      if mm.user.instancesMismatch then
        if now - (if mm.alertState.instanceMismatchStart = 0 then now
              else mm.alertState.instanceMismatchStart) ≥ fiveMinutesNs ∧
            mm.alertState.instanceCountAlerted = false then
          { state := { mm.alertState with
              instanceMismatchStart :=
                if mm.alertState.instanceMismatchStart = 0 then now
                else mm.alertState.instanceMismatchStart,
              instanceCountAlerted := true },
            sends := [(AlertMsg.instanceProblem mm.user.totalInstances
              mm.user.actualTotalInstances, AlertChannel.statusChannel)],
            errored := false }
        else
          { state := { mm.alertState with
              instanceMismatchStart :=
                if mm.alertState.instanceMismatchStart = 0 then now
                else mm.alertState.instanceMismatchStart },
            sends := [], errored := false }
      else if mm.alertState.instanceCountAlerted then
        { state := { mm.alertState with
              instanceCountAlerted := false, instanceMismatchStart := 0 },
          sends := [(AlertMsg.instanceResolved mm.user.totalInstances
            mm.user.actualTotalInstances, AlertChannel.statusChannel)],
          errored := false }
      else
        { state := { mm.alertState with instanceMismatchStart := 0 },
          sends := [], errored := false } := by
  simp only [checkInstanceCount, hSend, hEnabled, hCredit, if_true]
  split
  · rename_i h
    simp at h
  · by_cases h0 : mm.alertState.instanceMismatchStart = 0 <;>
      split <;> simp_all

/-- With the cost provider configured and a succeeding sink, `checkCredit` is
the edge-triggered latch on "credit balance ≤ daily cost". -/
theorem checkCredit_char (mm : MinuteMetrics) (config : AlertConfig)
    (sendAlert : AlertMsg → AlertChannel → Bool)
    (credit : VastaiCredit)
    (hSend : ∀ m c, sendAlert m c = true)
    (hEnabled : config.enabled = true)
    (hCredit : mm.user.vastaiCredit = some credit) :
    checkCredit mm config sendAlert =
      if credit.credit ≤ mm.user.totalDailyCost ∧
          mm.alertState.creditAlerted = false then
        { state := { mm.alertState with creditAlerted := true },
          sends := [(AlertMsg.creditProblem credit.credit
            mm.user.totalDailyCost, AlertChannel.statusChannel)],
          errored := false }
      else if credit.credit > mm.user.totalDailyCost ∧
          mm.alertState.creditAlerted = true then
        { state := { mm.alertState with creditAlerted := false },
          sends := [(AlertMsg.creditResolved credit.credit
            mm.user.totalDailyCost, AlertChannel.statusChannel)],
          errored := false }
      else
        { state := mm.alertState, sends := [], errored := false } := by
  simp only [checkCredit, hSend, hEnabled, hCredit, if_true]
  split
  · rename_i h
    simp at h
  · rfl

/-- The edge-triggered-latch contract for the version-mismatch condition:
"problem" is sent exactly when the condition holds and the flag is down (and
the flag then goes up); "resolved" exactly when the condition is clear and
the flag is up (and the flag then goes down); otherwise nothing is sent and
the state is untouched. -/
def versionLatchSpec (mm : MinuteMetrics)
    (sendAlert : AlertMsg → AlertChannel → Bool) : Prop :=
  (problemSent (checkVersionMismatch mm sendAlert) = true ↔
    mismatchedWorkersOf mm ≠ [] ∧
      mm.alertState.versionMismatchAlerted = false) ∧
  (problemSent (checkVersionMismatch mm sendAlert) = true →
    (checkVersionMismatch mm sendAlert).state.versionMismatchAlerted = true) ∧
  (resolvedSent (checkVersionMismatch mm sendAlert) = true ↔
    ¬mismatchedWorkersOf mm ≠ [] ∧
      mm.alertState.versionMismatchAlerted = true) ∧
  (resolvedSent (checkVersionMismatch mm sendAlert) = true →
    (checkVersionMismatch mm sendAlert).state.versionMismatchAlerted = false) ∧
  (problemSent (checkVersionMismatch mm sendAlert) = false →
    resolvedSent (checkVersionMismatch mm sendAlert) = false →
    (checkVersionMismatch mm sendAlert).sends = [] ∧
      (checkVersionMismatch mm sendAlert).state = mm.alertState)

/-- The edge-triggered-latch contract for the instance-count condition,
whose condition is "the counts disagree and the disagreement is at least
5 minutes old". Only the `instanceCountAlerted` flag is latched; the
mismatch-start bookkeeping field may move on non-notifying ticks. -/
def instanceLatchSpec (mm : MinuteMetrics) (config : AlertConfig)
    (sendAlert : AlertMsg → AlertChannel → Bool) (now : Int) : Prop :=
  (problemSent (checkInstanceCount mm config sendAlert now) = true ↔
    (mm.user.instancesMismatch = true ∧
        now - (if mm.alertState.instanceMismatchStart = 0 then now
          else mm.alertState.instanceMismatchStart) ≥ fiveMinutesNs) ∧
      mm.alertState.instanceCountAlerted = false) ∧
  (problemSent (checkInstanceCount mm config sendAlert now) = true →
    (checkInstanceCount mm config sendAlert now).state.instanceCountAlerted =
      true) ∧
  (resolvedSent (checkInstanceCount mm config sendAlert now) = true ↔
    ¬(mm.user.instancesMismatch = true ∧
        now - (if mm.alertState.instanceMismatchStart = 0 then now
          else mm.alertState.instanceMismatchStart) ≥ fiveMinutesNs) ∧
      mm.alertState.instanceCountAlerted = true) ∧
  (resolvedSent (checkInstanceCount mm config sendAlert now) = true →
    (checkInstanceCount mm config sendAlert now).state.instanceCountAlerted =
      false) ∧
  (problemSent (checkInstanceCount mm config sendAlert now) = false →
    resolvedSent (checkInstanceCount mm config sendAlert now) = false →
    (checkInstanceCount mm config sendAlert now).sends = [] ∧
      (checkInstanceCount mm config sendAlert now).state.instanceCountAlerted =
        mm.alertState.instanceCountAlerted)

/-- The edge-triggered-latch contract for the low-credit condition
"credit balance ≤ total daily cost". -/
def creditLatchSpec (mm : MinuteMetrics) (config : AlertConfig)
    (sendAlert : AlertMsg → AlertChannel → Bool) (credit : VastaiCredit) :
    Prop :=
  (problemSent (checkCredit mm config sendAlert) = true ↔
    credit.credit ≤ mm.user.totalDailyCost ∧
      mm.alertState.creditAlerted = false) ∧
  (problemSent (checkCredit mm config sendAlert) = true →
    (checkCredit mm config sendAlert).state.creditAlerted = true) ∧
  (resolvedSent (checkCredit mm config sendAlert) = true ↔
    ¬credit.credit ≤ mm.user.totalDailyCost ∧
      mm.alertState.creditAlerted = true) ∧
  (resolvedSent (checkCredit mm config sendAlert) = true →
    (checkCredit mm config sendAlert).state.creditAlerted = false) ∧
  (problemSent (checkCredit mm config sendAlert) = false →
    resolvedSent (checkCredit mm config sendAlert) = false →
    (checkCredit mm config sendAlert).sends = [] ∧
      (checkCredit mm config sendAlert).state = mm.alertState)

/-- C1: every alert condition is an edge-triggered latch. With a sink
whose sends succeed, the gating configuration present, and (for the
grace-period latch) a state reachable by the checks — the alerted flag can
only be up if the recorded mismatch start is at least the grace period old —
each of the three checks sends "problem" exactly on a tick where its
condition holds with the flag down, sends "resolved" exactly on a tick where
its condition is clear with the flag up, flips the flag on those ticks, and
otherwise sends nothing and leaves the flag as it was. -/
theorem alertLatch_edgeTriggered (mm : MinuteMetrics) (config : AlertConfig)
    (sendAlert : AlertMsg → AlertChannel → Bool) (now : Int)
    (credit : VastaiCredit)
    (hSend : ∀ m c, sendAlert m c = true)
    (hEnabled : config.enabled = true)
    (hCredit : mm.user.vastaiCredit = some credit)
    (hInv : mm.alertState.instanceCountAlerted = true →
      mm.alertState.instanceMismatchStart ≠ 0 ∧
        now - mm.alertState.instanceMismatchStart ≥ fiveMinutesNs) :
    versionLatchSpec mm sendAlert ∧
      instanceLatchSpec mm config sendAlert now ∧
      creditLatchSpec mm config sendAlert credit := by
  refine ⟨?_, ?_, ?_⟩
  · unfold versionLatchSpec
    rw [checkVersionMismatch_char mm sendAlert hSend]
    split_ifs with h1 h2 <;>
      simp_all [problemSent, resolvedSent, isProblemMsg, isResolvedMsg] <;>
      tauto
  · unfold instanceLatchSpec
    rw [checkInstanceCount_char mm config sendAlert now credit hSend hEnabled
      hCredit]
    have hf : fiveMinutesNs = 300000000000 := by decide
    by_cases hm : mm.user.instancesMismatch = true <;>
      by_cases ha : mm.alertState.instanceCountAlerted = true <;>
      by_cases h0 : mm.alertState.instanceMismatchStart = 0 <;>
      simp_all [problemSent, resolvedSent, isProblemMsg, isResolvedMsg] <;>
      (try split_ifs with hg) <;>
      simp_all <;>
      omega
  · unfold creditLatchSpec
    rw [checkCredit_char mm config sendAlert credit hSend hEnabled hCredit]
    by_cases hc2 : credit.credit ≤ mm.user.totalDailyCost <;>
      by_cases ha : mm.alertState.creditAlerted = true
    · have h1 : ¬(credit.credit ≤ mm.user.totalDailyCost ∧
          mm.alertState.creditAlerted = false) := by
        intro h
        rw [ha] at h
        exact absurd h.2 (by simp)
      have h2 : ¬(credit.credit > mm.user.totalDailyCost ∧
          mm.alertState.creditAlerted = true) := by
        intro h
        exact absurd hc2 (not_le.mpr h.1)
      rw [if_neg h1, if_neg h2]
      simp_all [problemSent, resolvedSent, isProblemMsg, isResolvedMsg]
    · have h1 : credit.credit ≤ mm.user.totalDailyCost ∧
          mm.alertState.creditAlerted = false :=
        ⟨hc2, by simpa using ha⟩
      rw [if_pos h1]
      simp_all [problemSent, resolvedSent, isProblemMsg, isResolvedMsg]
    · have h1 : ¬(credit.credit ≤ mm.user.totalDailyCost ∧
          mm.alertState.creditAlerted = false) := fun h => hc2 h.1
      have h2 : credit.credit > mm.user.totalDailyCost ∧
          mm.alertState.creditAlerted = true := ⟨not_le.mp hc2, ha⟩
      rw [if_neg h1, if_pos h2]
      simp_all [problemSent, resolvedSent, isProblemMsg, isResolvedMsg]
    · have h1 : ¬(credit.credit ≤ mm.user.totalDailyCost ∧
          mm.alertState.creditAlerted = false) := fun h => hc2 h.1
      have h2 : ¬(credit.credit > mm.user.totalDailyCost ∧
          mm.alertState.creditAlerted = true) := fun h => ha h.2
      rw [if_neg h1, if_neg h2]
      simp_all [problemSent, resolvedSent, isProblemMsg, isResolvedMsg]

/-! ## C2: the 5-minute grace period of the instance-count mismatch latch -/

/-- C2: with the cost provider configured and a succeeding sink, the
instance-count "problem" notification is only ever sent when the recorded
mismatch-start timestamp is set and at least 5 minutes old; the tick that
first sees a mismatch only records the start time (never fires); and any
tick on which the two counts agree resets the recorded start time to zero,
so a later mismatch starts a fresh 5-minute grace period. -/
theorem instanceMismatch_grace (mm : MinuteMetrics) (config : AlertConfig)
    (sendAlert : AlertMsg → AlertChannel → Bool) (now : Int)
    (credit : VastaiCredit)
    (hSend : ∀ m c, sendAlert m c = true)
    (hEnabled : config.enabled = true)
    (hCredit : mm.user.vastaiCredit = some credit) :
    (problemSent (checkInstanceCount mm config sendAlert now) = true →
      mm.alertState.instanceMismatchStart ≠ 0 ∧
        now - mm.alertState.instanceMismatchStart ≥ fiveMinutesNs) ∧
    (mm.user.instancesMismatch = true →
      mm.alertState.instanceMismatchStart = 0 →
      (checkInstanceCount mm config sendAlert now).state.instanceMismatchStart =
        now ∧ problemSent (checkInstanceCount mm config sendAlert now) = false) ∧
    (mm.user.instancesMismatch = false →
      (checkInstanceCount mm config sendAlert now).state.instanceMismatchStart =
        0) := by
  rw [checkInstanceCount_char mm config sendAlert now credit hSend hEnabled
    hCredit]
  have hf : fiveMinutesNs = 300000000000 := by decide
  by_cases hm : mm.user.instancesMismatch = true <;>
    by_cases ha : mm.alertState.instanceCountAlerted = true <;>
    by_cases h0 : mm.alertState.instanceMismatchStart = 0 <;>
    simp_all [problemSent, isProblemMsg] <;>
    (try split_ifs with hg) <;>
    simp_all <;>
    omega

/-! ## Shared concrete inputs for witnesses and counterexamples -/

/-- A notification sink whose sends always succeed. -/
def sendOk : AlertMsg → AlertChannel → Bool := fun _ _ => true

/-- A sink that fails exactly on the version-mismatch problem notification. -/
def sendFailVersion : AlertMsg → AlertChannel → Bool := fun m _ =>
  match m with
  | .versionProblem _ => false
  | _ => true

/-- A sink whose sends always fail. -/
def sendFailAll : AlertMsg → AlertChannel → Bool := fun _ _ => false

/-- An enabled alert configuration. -/
def cfgOn : AlertConfig := { minInstanceCount := 0, minCredit := 0, enabled := true }

/-- A concrete credit record. -/
def creditSample : VastaiCredit := { credit := 1, timestamp := [] }

/-- A concrete `General` block. -/
def generalSample : GeneralMinuteMetrics :=
  { totalInstances := 7, rpm := 2, tokensLast24Hours := 0,
    generationsLast24Hours := 0, generationLastHour := 0, cliVersion := [] }

/-- A concrete version-mismatched instance. -/
def instSample : InstanceMetrics :=
  { status := [], model := [], lane := [], ip := [], gpuModel := [],
    version := [], versionMismatch := true }

/-- A concrete worker with one version-mismatched instance. -/
def workerSample : WorkerMinuteMetrics :=
  { id := ['w'], name := ['w'], instanceCount := 1, dailyCost := 0,
    tokensPerInstance := 0, tokensLast24H := 0, totalTokens := 0,
    generationsLast24H := 0, generationLastHour := 0,
    instances := [instSample] }

/-- A concrete snapshot: version mismatch present, instance counts
disagreeing for over 5 minutes, credit below cost, no alert outstanding. -/
def userSample : UserMinuteMetrics :=
  { tokensLast24Hours := 0, tokensAllTime := 0, generationsLast24Hours := 0,
    totalInstances := 3, actualTotalInstances := 5, instancesMismatch := true,
    kuzcoDailyCost := 0, vastaiDailyCost := 0, totalDailyCost := 5,
    tokensPerInstance := 0, share := 0, generationLastHour := 0,
    vastaiCredit := some creditSample, workers := [workerSample] }

/-- A concrete alert state with no alert outstanding and a mismatch start
recorded at time 1. -/
def alertStateSample : AlertState :=
  { versionMismatchAlerted := false, instanceCountAlerted := false,
    creditAlerted := false, lastAlertTime := 0, instanceMismatchStart := 1 }

def mmSample : MinuteMetrics :=
  { general := generalSample, user := userSample, timestamp := [],
    alertState := alertStateSample }

/-- Witness for C1 (grace period already elapsed at `now = 300000000001`). -/
theorem alertLatch_edgeTriggered_witness :
    versionLatchSpec mmSample sendOk ∧
      instanceLatchSpec mmSample cfgOn sendOk 300000000001 ∧
      creditLatchSpec mmSample cfgOn sendOk creditSample :=
  alertLatch_edgeTriggered mmSample cfgOn sendOk 300000000001 creditSample
    (fun _ _ => rfl) rfl (by decide) (by decide)

/-- Witness for C2 at the same concrete snapshot. -/
theorem instanceMismatch_grace_witness :
    (problemSent (checkInstanceCount mmSample cfgOn sendOk 300000000001) =
        true →
      mmSample.alertState.instanceMismatchStart ≠ 0 ∧
        300000000001 - mmSample.alertState.instanceMismatchStart ≥
          fiveMinutesNs) ∧
    (mmSample.user.instancesMismatch = true →
      mmSample.alertState.instanceMismatchStart = 0 →
      (checkInstanceCount mmSample cfgOn sendOk
          300000000001).state.instanceMismatchStart = 300000000001 ∧
        problemSent (checkInstanceCount mmSample cfgOn sendOk 300000000001) =
          false) ∧
    (mmSample.user.instancesMismatch = false →
      (checkInstanceCount mmSample cfgOn sendOk
          300000000001).state.instanceMismatchStart = 0) :=
  instanceMismatch_grace mmSample cfgOn sendOk 300000000001 creditSample
    (fun _ _ => rfl) rfl (by decide)

/-! ## C10: failed sends leave the latch untouched -/

/-- C10: for each of the three checks, if the check returns an error (a
notification send failed), the whole `AlertState` — in particular the
alerted flag — is left at its prior value, and re-running the same check
with a working sink attempts exactly the same notification, so the
transition is retried on the next tick rather than silently lost. -/
theorem alertSendFailure_keepsState (mm : MinuteMetrics) (config : AlertConfig)
    (sendAlert send2 : AlertMsg → AlertChannel → Bool) (now : Int)
    (hSend2 : ∀ m c, send2 m c = true) :
    ((checkVersionMismatch mm sendAlert).errored = true →
      (checkVersionMismatch mm sendAlert).state = mm.alertState ∧
        (checkVersionMismatch mm send2).sends =
          (checkVersionMismatch mm sendAlert).sends) ∧
    ((checkInstanceCount mm config sendAlert now).errored = true →
      (checkInstanceCount mm config sendAlert now).state = mm.alertState ∧
        (checkInstanceCount mm config send2 now).sends =
          (checkInstanceCount mm config sendAlert now).sends) ∧
    ((checkCredit mm config sendAlert).errored = true →
      (checkCredit mm config sendAlert).state = mm.alertState ∧
        (checkCredit mm config send2).sends =
          (checkCredit mm config sendAlert).sends) := by
  have hf : fiveMinutesNs = 300000000000 := by decide
  refine ⟨?_, ?_, ?_⟩
  · simp only [checkVersionMismatch, hSend2, if_true]
    split_ifs <;> simp_all
  · simp only [checkInstanceCount, hSend2, if_true]
    split_ifs <;> simp_all <;> omega
  · simp only [checkCredit, hSend2, if_true]
    rcases hc : mm.user.vastaiCredit with _ | credit <;>
      simp only [hc] <;>
      split_ifs <;> simp_all

/-- Witness for C10 with a failing sink on the concrete snapshot. -/
theorem alertSendFailure_keepsState_witness :
    ((checkVersionMismatch mmSample sendFailAll).errored = true →
      (checkVersionMismatch mmSample sendFailAll).state = mmSample.alertState ∧
        (checkVersionMismatch mmSample sendOk).sends =
          (checkVersionMismatch mmSample sendFailAll).sends) ∧
    ((checkInstanceCount mmSample cfgOn sendFailAll 300000000001).errored =
        true →
      (checkInstanceCount mmSample cfgOn sendFailAll 300000000001).state =
          mmSample.alertState ∧
        (checkInstanceCount mmSample cfgOn sendOk 300000000001).sends =
          (checkInstanceCount mmSample cfgOn sendFailAll 300000000001).sends) ∧
    ((checkCredit mmSample cfgOn sendFailAll).errored = true →
      (checkCredit mmSample cfgOn sendFailAll).state = mmSample.alertState ∧
        (checkCredit mmSample cfgOn sendOk).sends =
          (checkCredit mmSample cfgOn sendFailAll).sends) :=
  alertSendFailure_keepsState mmSample cfgOn sendFailAll sendOk 300000000001
    (fun _ _ => rfl)

/-! ## C8: there is no fleet-wide-zero gate on the instance-count check -/

/-- The concrete snapshot of `mmSample` with the fleet-wide running-instance
count (the value the rolling window's current sample records) set to zero. -/
def mmZeroFleet : MinuteMetrics :=
  { mmSample with general := { generalSample with totalInstances := 0 } }

/-- Counterexample to C8 as stated: on a tick where the fleet-wide running
count is zero, `checkInstanceCount` still evaluates — with the cost provider
configured, a 5-minutes-old mismatch and no alert outstanding it sends the
"problem" notification and flips the latch, rather than leaving everything
unchanged. -/
theorem checkInstanceCount_zeroFleet_cex :
    mmZeroFleet.general.totalInstances = 0 ∧
      (checkInstanceCount mmZeroFleet cfgOn sendOk 300000000001).sends ≠ [] ∧
      (checkInstanceCount mmZeroFleet cfgOn sendOk
          300000000001).state.instanceCountAlerted = true ∧
      mmZeroFleet.alertState.instanceCountAlerted = false := by
  decide

/-- C8 amended: the instance-count-mismatch evaluation is not gated on the
fleet-wide running-instance count at all — the result of
`checkInstanceCount` is unchanged under any replacement of the snapshot's
`General` block (the only gates are `config.Enabled` and the presence of the
cost provider's credit). The zero-fleet gate exists only in the log-pattern
health monitor. -/
theorem checkInstanceCount_ignores_fleetCount (mm : MinuteMetrics)
    (config : AlertConfig) (sendAlert : AlertMsg → AlertChannel → Bool)
    (now : Int) (g : GeneralMinuteMetrics) :
    checkInstanceCount { mm with general := g } config sendAlert now =
      checkInstanceCount mm config sendAlert now := rfl

/-! ## C9: checkAlerts short-circuits on the first failing check -/

/-- Counterexample to C9 as stated: with a sink that fails exactly on the
version-problem notification, and a snapshot on which both the version check
and the credit check would fire, `checkAlerts` stops at the version check's
error — the credit check (which on its own would send its problem
notification) is never evaluated on that tick. -/
theorem checkAlerts_error_blocks_cex :
    (checkAlerts mmSample cfgOn sendFailVersion 300000000001).errored = true ∧
      (checkAlerts mmSample cfgOn sendFailVersion 300000000001).sends =
        [(AlertMsg.versionProblem (mismatchedWorkersOf mmSample),
          AlertChannel.errorChannel)] ∧
      (checkCredit mmSample cfgOn sendFailVersion).sends =
        [(AlertMsg.creditProblem creditSample.credit
          mmSample.user.totalDailyCost, AlertChannel.statusChannel)] ∧
      (checkAlerts mmSample cfgOn sendFailVersion
          300000000001).state.creditAlerted = false := by
  decide

/-- C9 amended: an error in an earlier alert check prevents the remaining
checks from being evaluated on that tick — `checkAlerts` returns the
version check's result unchanged when it errors, and stops after the
instance-count check when that one errors, so the credit check contributes
no sends in either case. -/
theorem checkAlerts_shortCircuits (mm : MinuteMetrics) (config : AlertConfig)
    (sendAlert : AlertMsg → AlertChannel → Bool) (now : Int) :
    ((checkVersionMismatch mm sendAlert).errored = true →
      checkAlerts mm config sendAlert now = checkVersionMismatch mm sendAlert) ∧
    ((checkVersionMismatch mm sendAlert).errored = false →
      (checkInstanceCount { mm with
          alertState := (checkVersionMismatch mm sendAlert).state } config
          sendAlert now).errored = true →
      (checkAlerts mm config sendAlert now).errored = true ∧
        (checkAlerts mm config sendAlert now).sends =
          (checkVersionMismatch mm sendAlert).sends ++
            (checkInstanceCount { mm with
              alertState := (checkVersionMismatch mm sendAlert).state } config
              sendAlert now).sends) := by
  constructor
  · intro h
    simp [checkAlerts, h]
  · intro h1 h2
    simp [checkAlerts, h1, h2]

/-- Witness for the amended C9 on the concrete snapshot with the
version-problem send failing. -/
theorem checkAlerts_shortCircuits_witness :
    checkAlerts mmSample cfgOn sendFailVersion 300000000001 =
      checkVersionMismatch mmSample sendFailVersion :=
  (checkAlerts_shortCircuits mmSample cfgOn sendFailVersion 300000000001).1
    (by decide)

/-! ## Version comparison (`compareVersions`, src/api/worker.go 220-248) -/

/-- Go `strings.Split` with a one-character separator: the separators are
removed and every (possibly empty) segment between them is kept. -/
def splitOnSep (sep : Char) : List Char → List (List Char)
  | [] => [[]]
  | c :: rest =>
    match splitOnSep sep rest with
    | [] => [[]]
    | seg :: segs =>
      if c = sep then [] :: seg :: segs
      else (c :: seg) :: segs

/-- Digit-string value accumulator used by `atoi` (`none` on a non-digit). -/
def digitsVal (s : List Char) : Option Nat :=
  s.foldl
    (fun acc c =>
      acc.bind (fun n =>
        if c.isDigit then some (n * 10 + (c.toNat - '0'.toNat)) else none))
    (some 0)

/-- Go `strconv.Atoi`: an optional single leading sign followed by at least
one digit; anything else is an error (64-bit overflow is not modelled —
irrelevant for version components). -/
def atoi (s : List Char) : Option Int :=
  match s with
  | [] => none
  | '+' :: rest => if rest = [] then none else (digitsVal rest).map Int.ofNat
  | '-' :: rest =>
    if rest = [] then none else (digitsVal rest).map (fun n => -(n : Int))
  | _ => (digitsVal s).map Int.ofNat

/-- The `"newer (%s > %s)"` message of `compareVersions`. -/
def newerMsg (p1 p2 : List Char) : List Char :=
  "newer (".toList ++ p1 ++ " > ".toList ++ p2 ++ ")".toList

/-- The `"older (%s < %s)"` message of `compareVersions`. -/
def olderMsg (p1 p2 : List Char) : List Char :=
  "older (".toList ++ p1 ++ " < ".toList ++ p2 ++ ")".toList

/-- The index loop of `compareVersions` over the shared length of the two
component lists. -/
def compareLoop (p1 p2 : List Char) :
    List (List Char) → List (List Char) → Bool × List Char
  | [], _ => (false, [])
  | _ :: _, [] => (false, [])
  | a :: as, b :: bs =>
    match atoi a, atoi b with
    | some n1, some n2 =>
      if n1 ≠ n2 then
        if n1 > n2 then (true, newerMsg p1 p2) else (true, olderMsg p1 p2)
      else compareLoop p1 p2 as bs
    | _, _ => compareLoop p1 p2 as bs

/-- `compareVersions` (worker.go 220-248): take the part before the first
`'-'` of each version, split it on `'.'`, and scan the numeric components. -/
def compareVersions (v1 v2 : List Char) : Bool × List Char :=
  let v1Parts := (splitOnSep '-' v1).headD []
  let v2Parts := (splitOnSep '-' v2).headD []
  let v1Numbers := splitOnSep '.' v1Parts
  let v2Numbers := splitOnSep '.' v2Parts
  compareLoop v1Parts v2Parts v1Numbers v2Numbers

/-- Spec-side strip: "strips everything from the first '-' onward". -/
def stripSuffix (v : List Char) : List Char :=
  v.takeWhile (fun c => c ≠ '-')

/-- Spec-side scan: the first pair of components, over the shared length,
that both parse as integers and differ; pairs with a parse failure on
either side are treated as equal and skipped. -/
def firstNumericDiff :
    List (List Char) → List (List Char) → Option (Int × Int)
  | a :: as, b :: bs =>
    match atoi a, atoi b with
    | some n1, some n2 =>
      if n1 ≠ n2 then some (n1, n2) else firstNumericDiff as bs
    | _, _ => firstNumericDiff as bs
  | _, _ => none

/-- The comparison described by the spec: mismatch iff some comparable
component pair differs, direction given by that first differing pair. -/
def specCompareVersions (v1 v2 : List Char) : Bool × List Char :=
  match firstNumericDiff (splitOnSep '.' (stripSuffix v1))
      (splitOnSep '.' (stripSuffix v2)) with
  | none => (false, [])
  | some (n1, n2) =>
    if n1 > n2 then (true, newerMsg (stripSuffix v1) (stripSuffix v2))
    else (true, olderMsg (stripSuffix v1) (stripSuffix v2))

/-- `splitOnSep` never produces the empty list of segments. -/
theorem splitOnSep_ne_nil (sep : Char) (v : List Char) :
    splitOnSep sep v ≠ [] := by
  cases v with
  | nil => simp [splitOnSep]
  | cons c rest =>
    simp only [splitOnSep]
    cases h : splitOnSep sep rest with
    | nil => simp
    | cons seg segs => by_cases hc : c = sep <;> simp [hc]

/-- The first segment of a split is everything before the first separator. -/
theorem splitOnSep_head (sep : Char) (v : List Char) :
    (splitOnSep sep v).headD [] = v.takeWhile (fun c => c ≠ sep) := by
  induction v with
  | nil => rfl
  | cons c rest ih =>
    simp only [splitOnSep]
    obtain ⟨seg, segs, hss⟩ : ∃ seg segs, splitOnSep sep rest = seg :: segs := by
      cases hh : splitOnSep sep rest with
      | nil => exact absurd hh (splitOnSep_ne_nil sep rest)
      | cons seg segs => exact ⟨seg, segs, rfl⟩
    rw [hss] at ih ⊢
    by_cases hc : c = sep
    · simp [hc, List.takeWhile]
    · simp only [List.headD] at ih
      simp [hc, List.takeWhile, ih]

/-- The scanning loop of the code computes exactly the spec-side
first-differing-comparable-pair semantics. -/
theorem compareLoop_eq_firstNumericDiff (p1 p2 : List Char) :
    ∀ as bs, compareLoop p1 p2 as bs =
      match firstNumericDiff as bs with
      | none => (false, [])
      | some (n1, n2) =>
        if n1 > n2 then (true, newerMsg p1 p2) else (true, olderMsg p1 p2) := by
  intro as
  induction as with
  | nil => intro bs; cases bs <;> rfl
  | cons a as ih =>
    intro bs
    cases bs with
    | nil => rfl
    | cons b bs =>
      simp only [compareLoop, firstNumericDiff]
      cases ha : atoi a <;> cases hb : atoi b <;> simp [ih]
      rename_i n1 n2
      by_cases hne : n1 = n2 <;> simp [hne, ih]

/-- C5: `compareVersions` implements exactly the documented comparison: it
strips everything from the first `'-'` onward, splits on `'.'`, and the
first component pair over the shared length that both parse as integers and
differ decides the mismatch and its direction; unparseable pairs are skipped
as equal; with no differing comparable pair the versions are equal. In
particular `"0.2.3-fe4d73f"` vs `"0.2.3"` is equal and `"0.3.0"` vs
`"0.2.9"` is a mismatch reported as newer. -/
theorem compareVersions_spec_equiv :
    (∀ v1 v2 : List Char, compareVersions v1 v2 = specCompareVersions v1 v2) ∧
      compareVersions "0.2.3-fe4d73f".toList "0.2.3".toList = (false, []) ∧
      compareVersions "0.3.0".toList "0.2.9".toList =
        (true, "newer (0.3.0 > 0.2.9)".toList) := by
  refine ⟨?_, by decide, by decide⟩
  intro v1 v2
  unfold compareVersions specCompareVersions stripSuffix
  rw [← splitOnSep_head '-' v1, ← splitOnSep_head '-' v2]
  exact compareLoop_eq_firstNumericDiff _ _ _ _

/-! ## Log-Pattern Health Monitor (`CheckInstanceLogs`, part_003 486-536) -/

/-- The two observations `CheckInstanceLogs` makes of a raw log line:
whether it contains the substring
`"Failed to send heartbeat: TimeoutError: timeout"`, and the result of
`parseLogTimestamp` (the RFC3339 timestamp, in nanoseconds, when the line
parses). -/
structure LogLine where
  containsSig : Bool
  parsedTs : Option Int
deriving Repr, DecidableEq

/-- Go `int(d.Minutes())`: the duration in whole minutes, truncated toward
zero. -/
def goMinutes (d : Int) : Int :=
  if 0 ≤ d then d / minuteNs else -((-d) / minuteNs)

/-- The body of the scan loop of `CheckInstanceLogs`: on a signature line
with a parseable timestamp 0, 1 or 2 (truncated) minutes ago, mark that
minute's bucket. -/
def bucketStep (now : Int) (det : Bool × Bool × Bool) (line : LogLine) :
    Bool × Bool × Bool :=
  if line.containsSig then
    match line.parsedTs with
    | some ts =>
      if 0 ≤ goMinutes (now - ts) ∧ goMinutes (now - ts) < 3 then
        if goMinutes (now - ts) = 0 then (true, det.2.1, det.2.2)
        else if goMinutes (now - ts) = 1 then (det.1, true, det.2.2)
        else (det.1, det.2.1, true)
      else det
    | none => det
  else det

/-- `CheckInstanceLogs` (part_003 486-536): sustained failure iff the
signature appears in each of the three most recent minute buckets. -/
def CheckInstanceLogs (lines : List LogLine) (now : Int) : Bool :=
  let det := lines.foldl (bucketStep now) (false, false, false)
  det.1 && det.2.1 && det.2.2

/-- Spec-side bucket membership: a signature line with a parseable
timestamp `ts` such that `lo ≤ now - ts < hi`. -/
def sigInWindow (now lo hi : Int) (l : LogLine) : Bool :=
  l.containsSig &&
    (match l.parsedTs with
     | some ts => decide (lo ≤ now - ts) && decide (now - ts < hi)
     | none => false)

theorem goMinutes_eq_zero_iff (d : Int) :
    goMinutes d = 0 ↔ -minuteNs < d ∧ d < minuteNs := by
  unfold goMinutes minuteNs
  split_ifs <;> omega

theorem goMinutes_eq_one_iff (d : Int) :
    goMinutes d = 1 ↔ minuteNs ≤ d ∧ d < 2 * minuteNs := by
  unfold goMinutes minuteNs
  split_ifs <;> omega

theorem goMinutes_two_iff (d : Int) :
    (0 ≤ goMinutes d ∧ goMinutes d < 3 ∧ goMinutes d ≠ 0 ∧
        goMinutes d ≠ 1) ↔
      2 * minuteNs ≤ d ∧ d < 3 * minuteNs := by
  unfold goMinutes minuteNs
  split_ifs <;> omega

/-- The first bucket bit after one loop step. -/
theorem bucketStep_fst (now : Int) (det : Bool × Bool × Bool) (l : LogLine) :
    (bucketStep now det l).1 =
      (det.1 || sigInWindow now (-minuteNs + 1) minuteNs l) := by
  rcases l with ⟨sig, ts?⟩
  cases sig <;> rcases ts? with _ | ts <;>
    simp [bucketStep, sigInWindow]
  by_cases h03 : 0 ≤ goMinutes (now - ts) ∧ goMinutes (now - ts) < 3
  · by_cases h0 : goMinutes (now - ts) = 0
    · obtain ⟨hl, hr⟩ := (goMinutes_eq_zero_iff (now - ts)).mp h0
      simp [h03, h0]
      omega
    · have : ¬(-minuteNs < now - ts ∧ now - ts < minuteNs) := by
        intro hc
        exact h0 ((goMinutes_eq_zero_iff (now - ts)).mpr hc)
      by_cases h1 : goMinutes (now - ts) = 1 <;>
        simp [h03, h0, h1] <;> omega
  · have : ¬(-minuteNs < now - ts ∧ now - ts < minuteNs) := by
      intro hc
      exact h03 (by
        rw [(goMinutes_eq_zero_iff (now - ts)).mpr hc]
        exact ⟨le_refl 0, by norm_num⟩)
    simp [h03]
    omega

/-- The second bucket bit after one loop step. -/
theorem bucketStep_snd (now : Int) (det : Bool × Bool × Bool) (l : LogLine) :
    (bucketStep now det l).2.1 =
      (det.2.1 || sigInWindow now minuteNs (2 * minuteNs) l) := by
  rcases l with ⟨sig, ts?⟩
  cases sig <;> rcases ts? with _ | ts <;>
    simp [bucketStep, sigInWindow]
  by_cases h03 : 0 ≤ goMinutes (now - ts) ∧ goMinutes (now - ts) < 3
  · by_cases h1 : goMinutes (now - ts) = 1
    · obtain ⟨hl, hr⟩ := (goMinutes_eq_one_iff (now - ts)).mp h1
      by_cases h0 : goMinutes (now - ts) = 0 <;>
        simp [h03, h0, h1] <;> omega
    · have : ¬(minuteNs ≤ now - ts ∧ now - ts < 2 * minuteNs) := by
        intro hc
        exact h1 ((goMinutes_eq_one_iff (now - ts)).mpr hc)
      by_cases h0 : goMinutes (now - ts) = 0 <;>
        simp [h03, h0, h1] <;> omega
  · have : ¬(minuteNs ≤ now - ts ∧ now - ts < 2 * minuteNs) := by
      intro hc
      exact h03 (by
        rw [(goMinutes_eq_one_iff (now - ts)).mpr hc]
        exact ⟨by norm_num, by norm_num⟩)
    simp [h03]
    omega

/-- The third bucket bit after one loop step. -/
theorem bucketStep_thd (now : Int) (det : Bool × Bool × Bool) (l : LogLine) :
    (bucketStep now det l).2.2 =
      (det.2.2 || sigInWindow now (2 * minuteNs) (3 * minuteNs) l) := by
  rcases l with ⟨sig, ts?⟩
  cases sig <;> rcases ts? with _ | ts <;>
    simp [bucketStep, sigInWindow]
  by_cases h03 : 0 ≤ goMinutes (now - ts) ∧ goMinutes (now - ts) < 3
  · by_cases h0 : goMinutes (now - ts) = 0 <;>
      by_cases h1 : goMinutes (now - ts) = 1
    · exact absurd (h1 ▸ h0) (by norm_num)
    · obtain ⟨hl, hr⟩ := (goMinutes_eq_zero_iff (now - ts)).mp h0
      simp [h03, h0, h1]
      omega
    · obtain ⟨hl, hr⟩ := (goMinutes_eq_one_iff (now - ts)).mp h1
      simp [h03, h0, h1]
      omega
    · have h2 := (goMinutes_two_iff (now - ts)).mp ⟨h03.1, h03.2, h0, h1⟩
      simp [h03, h0, h1]
      omega
  · have : ¬(2 * minuteNs ≤ now - ts ∧ now - ts < 3 * minuteNs) := by
      intro hc
      have h2 := (goMinutes_two_iff (now - ts)).mpr hc
      exact h03 ⟨h2.1, h2.2.1⟩
    simp [h03]
    omega

/-- The bucket scan over a whole log equals the three spec-side
bucket-membership scans. -/
theorem foldl_bucketStep (now : Int) :
    ∀ (lines : List LogLine) (det : Bool × Bool × Bool),
      lines.foldl (bucketStep now) det =
        (det.1 || lines.any (sigInWindow now (-minuteNs + 1) minuteNs),
         det.2.1 || lines.any (sigInWindow now minuteNs (2 * minuteNs)),
         det.2.2 || lines.any (sigInWindow now (2 * minuteNs) (3 * minuteNs))) := by
  intro lines
  induction lines with
  | nil => intro det; simp
  | cons l rest ih =>
    intro det
    rw [List.foldl_cons, ih]
    have h1 := bucketStep_fst now det l
    have h2 := bucketStep_snd now det l
    have h3 := bucketStep_thd now det l
    simp [h1, h2, h3, Bool.or_assoc]

/-- A query time for the health-monitor counterexample. -/
def cexNow : Int := 1000000000000

/-- Three signature lines: one 30 seconds in the FUTURE, one 90 seconds ago,
one 150 seconds ago. -/
def cexLines : List LogLine :=
  [⟨true, some 1030000000000⟩, ⟨true, some 910000000000⟩,
   ⟨true, some 850000000000⟩]

/-- Counterexample to C7 as stated: `CheckInstanceLogs` returns true on a
log whose most-recent bucket is witnessed only by a timestamp 30 seconds in
the future — no signature line lies in the bucket 0-1 minutes BEFORE now,
yet the check still reports a sustained failure, because Go's `int()`
truncation toward zero maps a sub-minute future timestamp to minute bucket
0. -/
theorem checkInstanceLogs_futureTs_cex :
    CheckInstanceLogs cexLines cexNow = true ∧
      cexLines.any (sigInWindow cexNow 0 minuteNs) = false := by decide

/-- C7 amended: `CheckInstanceLogs` returns true iff at least one
heartbeat-timeout signature line with a parseable timestamp lies in each of
the three truncated-minute buckets: 1-2 minutes before now, 2-3 minutes
before now, and a most-recent bucket that spans from one minute before now
to one minute after it (timestamps up to a minute in the future land in
bucket 0 because the minute difference is truncated toward zero). In
particular occurrences confined to the most recent bucket never suffice. -/
theorem checkInstanceLogs_buckets (lines : List LogLine) (now : Int) :
    CheckInstanceLogs lines now = true ↔
      lines.any (sigInWindow now (-minuteNs + 1) minuteNs) = true ∧
        lines.any (sigInWindow now minuteNs (2 * minuteNs)) = true ∧
        lines.any (sigInWindow now (2 * minuteNs) (3 * minuteNs)) = true := by
  unfold CheckInstanceLogs
  rw [foldl_bucketStep]
  simp
  tauto

/-! ## Snapshot Builder (`collectMinuteMetrics`, part_005 490-613) -/

/-- `GenerationHistory` (part_005 72-76). -/
structure GenerationHistory where
  date : List Char
  value : Int
  label : List Char
deriving Repr, DecidableEq

/-- `TokenHistory` (part_005 186-190). -/
structure TokenHistory where
  date : List Char
  value : Int
  label : List Char
deriving Repr, DecidableEq

/-- `Worker` (worker.go 18-30); its `Instance` has the same fields as
`InstanceMetrics` (the Go conversion `InstanceMetrics(inst)` is an identity),
so instances are carried here as `InstanceMetrics` directly. -/
structure Worker where
  id : List Char
  name : List Char
  instanceCount : Int
  dailyCost : Rat
  tokensPerInstance : Int
  tokensLast24H : Int
  totalTokens : Int
  generationsLast24H : Int
  generationsHistory : List GenerationHistory
  instances : List InstanceMetrics
  tokenHistory : List TokenHistory
deriving Repr, DecidableEq

/-- `GeneralMetrics` (part_005 97-105), the primary provider's fleet view. -/
structure GeneralMetrics where
  runningInstanceCount : Int
  rpm : Int
  tokensLast24Hours : Int
  tokensAllTime : Int
  generationsLast24Hours : Int
  cliVersion : List Char
  generationsHistory : List GenerationHistory
deriving Repr, DecidableEq

/-- `UserMetrics` (part_005 107-118), the primary provider's user view. -/
structure UserMetrics where
  tokensLast24Hours : Int
  tokensAllTime : Int
  generationsLast24Hours : Int
  totalInstances : Int
  totalDailyCost : Rat
  tokensPerInstance : Int
  share : Rat
  efficiency : Rat
  generationsHistory : List GenerationHistory
  workers : List Worker
deriving Repr, DecidableEq

/-- `Metrics` (part_005 181-184): the result of `GetAllMetrics`. -/
structure Metrics where
  general : GeneralMetrics
  user : UserMetrics
deriving Repr, DecidableEq

/-- The first history value, or 0 (`if len(h) > 0` guards in Go). -/
def firstHistoryValue (h : List GenerationHistory) : Int :=
  match h with
  | g :: _ => g.value
  | [] => 0

/-- The per-worker copy loop of `collectMinuteMetrics` (part_005 572-595). -/
def buildWorkerMinute (w : Worker) : WorkerMinuteMetrics :=
  { id := w.id, name := w.name, instanceCount := w.instanceCount,
    dailyCost := w.dailyCost, tokensPerInstance := w.tokensPerInstance,
    tokensLast24H := w.tokensLast24H, totalTokens := w.totalTokens,
    generationsLast24H := w.generationsLast24H,
    generationLastHour := firstHistoryValue w.generationsHistory,
    instances := w.instances }

/-- `collectMinuteMetrics` (part_005 490-613) as a function of the fetch
results of one tick: `metricsRes` is the primary `GetAllMetrics` result
(`none` = error, aborting the tick before anything is touched);
`vastaiInstancesRes`, `vastaiCreditRes`, `vastaiCostRes` are the secondary
provider's results (`none` = that call failed and is degraded gracefully).
Returns the published snapshot, the stored alert state, the updated rolling
window and the notification sends — or `none` when the primary fetch
failed. -/
def collectMinuteMetrics (metricsRes : Option Metrics)
    (vastaiConfigured includeVastaiCost : Bool)
    (vastaiInstancesRes : Option Int) (vastaiCreditRes : Option VastaiCredit)
    (vastaiCostRes : Option Rat) (alertConfig : AlertConfig)
    (sendAlert : AlertMsg → AlertChannel → Bool) (globalState : AlertState)
    (window : List MinuteStats) (now : Int) (tsStr : List Char) :
    Option (MinuteMetrics × AlertState × List MinuteStats ×
      List (AlertMsg × AlertChannel)) :=
  match metricsRes with
  | none => none
  | some metrics =>
    let mmGeneral : GeneralMinuteMetrics :=
      { totalInstances := metrics.general.runningInstanceCount,
        rpm := metrics.general.rpm,
        tokensLast24Hours := metrics.general.tokensLast24Hours,
        generationsLast24Hours := metrics.general.generationsLast24Hours,
        generationLastHour := firstHistoryValue metrics.general.generationsHistory,
        cliVersion := metrics.general.cliVersion }
    let actual := metrics.user.totalInstances
    let countPair : Int × Bool :=
      if vastaiConfigured then
        match vastaiInstancesRes with
        | none => (actual, false)
        | some vi => (vi, decide (vi ≠ actual))
      else (actual, false)
    let creditField : Option VastaiCredit :=
      if vastaiConfigured && includeVastaiCost then vastaiCreditRes else none
    let kuzcoDailyCost := metrics.user.totalDailyCost
    let costPair : Rat × Rat :=
      if vastaiConfigured && includeVastaiCost then
        match vastaiCostRes with
        | none => (0, 0)
        | some c => (c, c)
      else (0, kuzcoDailyCost)
    let mmUser : UserMinuteMetrics :=
      { tokensLast24Hours := metrics.user.tokensLast24Hours,
        tokensAllTime := metrics.user.tokensAllTime,
        generationsLast24Hours := metrics.user.generationsLast24Hours,
        totalInstances := countPair.1,
        actualTotalInstances := actual,
        instancesMismatch := countPair.2,
        kuzcoDailyCost := kuzcoDailyCost,
        vastaiDailyCost := costPair.1,
        totalDailyCost := costPair.2,
        tokensPerInstance := metrics.user.tokensPerInstance,
        share := metrics.user.share,
        generationLastHour := firstHistoryValue metrics.user.generationsHistory,
        vastaiCredit := creditField,
        workers := metrics.user.workers.map buildWorkerMinute }
    let mm0 : MinuteMetrics :=
      { general := mmGeneral, user := mmUser, timestamp := tsStr,
        alertState := globalState }
    let r := checkAlerts mm0 alertConfig sendAlert now
    let mm1 := { mm0 with alertState := r.state }
    let window1 := UpdateStats window
      ⟨mm1.general.rpm, mm1.general.totalInstances,
        mm1.general.generationLastHour, mm1.user.generationLastHour⟩ now
    some (mm1, r.state, window1, r.sends)

/-- The shared state the minute tick maintains: the published "latest
snapshot" (`currentMetrics` of part_009 27-38), the global alert state and
the rolling window. -/
structure MonitorState where
  latest : Option MinuteMetrics
  alertState : AlertState
  window : List MinuteStats
deriving Repr, DecidableEq

/-- The upstream results one minute tick works with. -/
structure TickInput where
  metricsRes : Option Metrics
  vastaiInstancesRes : Option Int
  vastaiCreditRes : Option VastaiCredit
  vastaiCostRes : Option Rat
  now : Int
  tsStr : List Char
deriving Repr, DecidableEq

/-- One minute tick of the collection loop (part_005 466-488): on a
collection error the loop only logs and the shared state stays as it was;
on success the snapshot is published and the window and alert state are
replaced. -/
def minuteTick (vastaiConfigured includeVastaiCost : Bool)
    (alertConfig : AlertConfig) (sendAlert : AlertMsg → AlertChannel → Bool)
    (st : MonitorState) (t : TickInput) : MonitorState :=
  match collectMinuteMetrics t.metricsRes vastaiConfigured includeVastaiCost
      t.vastaiInstancesRes t.vastaiCreditRes t.vastaiCostRes alertConfig
      sendAlert st.alertState st.window t.now t.tsStr with
  | none => st
  | some (mm, as1, w1, _) => { latest := some mm, alertState := as1, window := w1 }

/-- The minute-tick loop over a sequence of ticks. -/
def runTicks (vastaiConfigured includeVastaiCost : Bool)
    (alertConfig : AlertConfig) (sendAlert : AlertMsg → AlertChannel → Bool)
    (st : MonitorState) (ticks : List TickInput) : MonitorState :=
  ticks.foldl (minuteTick vastaiConfigured includeVastaiCost alertConfig
    sendAlert) st

/-- C6: failure semantics of the minute tick. If the primary metrics fetch
fails, the tick produces nothing: the published latest snapshot, alert state
and rolling window are all unchanged, and the loop goes on with the
remaining ticks. If only the secondary (cost) provider's calls fail, the
tick still publishes a snapshot in which the secondary instance count falls
back to the primary count (no mismatch flagged), the credit is absent and
the daily-cost figures are zero; a tick whose primary fetch succeeds always
publishes a snapshot. -/
theorem minuteTick_failureSemantics (vc ic : Bool) (alertConfig : AlertConfig)
    (sendAlert : AlertMsg → AlertChannel → Bool) :
    (∀ st t, t.metricsRes = none →
      minuteTick vc ic alertConfig sendAlert st t = st) ∧
    (∀ st t rest, t.metricsRes = none →
      runTicks vc ic alertConfig sendAlert st (t :: rest) =
        runTicks vc ic alertConfig sendAlert st rest) ∧
    (∀ m gs w now ts,
      (collectMinuteMetrics (some m) true true none none none alertConfig
          sendAlert gs w now ts).map
        (fun r => (r.1.user.totalInstances, r.1.user.instancesMismatch,
          r.1.user.vastaiCredit, r.1.user.vastaiDailyCost,
          r.1.user.totalDailyCost)) =
      some (m.user.totalInstances, false, none, 0, 0)) ∧
    (∀ st t m, t.metricsRes = some m →
      (minuteTick vc ic alertConfig sendAlert st t).latest.isSome = true) := by
  refine ⟨?_, ?_, ?_, ?_⟩
  · intro st t h
    simp [minuteTick, collectMinuteMetrics, h]
  · intro st t rest h
    simp [runTicks, List.foldl_cons, minuteTick, collectMinuteMetrics, h]
  · intro m gs w now ts
    rfl
  · intro st t m h
    simp [minuteTick, collectMinuteMetrics, h]

/-- A concrete primary-provider fleet view for the C6 witness. -/
def generalMetricsSample : GeneralMetrics :=
  { runningInstanceCount := 4, rpm := 9, tokensLast24Hours := 0,
    tokensAllTime := 0, generationsLast24Hours := 0, cliVersion := [],
    generationsHistory := [] }

/-- A concrete primary-provider user view for the C6 witness. -/
def userMetricsSample : UserMetrics :=
  { tokensLast24Hours := 0, tokensAllTime := 0, generationsLast24Hours := 0,
    totalInstances := 4, totalDailyCost := 2, tokensPerInstance := 0,
    share := 0, efficiency := 0, generationsHistory := [], workers := [] }

/-- A concrete primary-provider result for the C6 witness. -/
def metricsSample : Metrics :=
  { general := generalMetricsSample, user := userMetricsSample }

/-- A concrete tick whose primary fetch fails. -/
def tickPrimaryFail : TickInput :=
  { metricsRes := none, vastaiInstancesRes := some 5,
    vastaiCreditRes := some creditSample, vastaiCostRes := some 1,
    now := 0, tsStr := [] }

/-- A concrete tick whose primary fetch succeeds. -/
def tickPrimaryOk : TickInput :=
  { metricsRes := some metricsSample, vastaiInstancesRes := none,
    vastaiCreditRes := none, vastaiCostRes := none, now := 0, tsStr := [] }

/-- A concrete prior monitor state. -/
def monitorStateSample : MonitorState :=
  { latest := none, alertState := alertStateSample, window := [] }

/-- Witness for C6 at concrete ticks. -/
theorem minuteTick_failureSemantics_witness :
    minuteTick true true cfgOn sendOk monitorStateSample tickPrimaryFail =
        monitorStateSample ∧
      runTicks true true cfgOn sendOk monitorStateSample
          [tickPrimaryFail, tickPrimaryOk] =
        runTicks true true cfgOn sendOk monitorStateSample [tickPrimaryOk] ∧
      (collectMinuteMetrics (some metricsSample) true true none none none
          cfgOn sendOk alertStateSample [] 0 []).map
        (fun r => (r.1.user.totalInstances, r.1.user.instancesMismatch,
          r.1.user.vastaiCredit, r.1.user.vastaiDailyCost,
          r.1.user.totalDailyCost)) =
        some (metricsSample.user.totalInstances, false, none, 0, 0) ∧
      (minuteTick true true cfgOn sendOk monitorStateSample
          tickPrimaryOk).latest.isSome = true := by
  have h := minuteTick_failureSemantics true true cfgOn sendOk
  exact ⟨h.1 monitorStateSample tickPrimaryFail rfl,
    h.2.1 monitorStateSample tickPrimaryFail [tickPrimaryOk] rfl,
    h.2.2.1 metricsSample alertStateSample [] 0 [],
    h.2.2.2 monitorStateSample tickPrimaryOk metricsSample rfl⟩
